import Mathlib

/-!
Shallow embedding of the session correlation engine of `ocserv_exporter`
(collector package, `collector.go`) together with the numeric-field
conversion step of its log parser (`internal/parser/parser.go`).

Modelling conventions:
* Go `time.Time` is embedded as `Int` — nanoseconds since the Unix epoch
  (Go durations compare in nanoseconds; `Time.Unix()` is `unixSec`).
* Go maps are embedded as association lists (`List (key × value)`) with
  `lookupA` / `insertA` (overwrite in place) / `eraseA`; Go map iteration
  order is the list order, which the theorems quantify over where it matters.
* The Prometheus metric vectors the collector writes to are embedded as
  association lists keyed by their label-value lists, with the standard
  library semantics of the call sites: `WithLabelValues(...).Inc/Dec/Add`
  auto-creates a child at 0, `Set` overwrites, `DeleteLabelValues` removes
  the child if present, `Observe` appends to a per-child observation list.
-/

namespace OcservExporter

/-- ReconnectWindow = 5 * time.Minute, in nanoseconds. -/
def ReconnectWindow : Int := 5 * 60 * 1000000000

/-- ProblematicSessionThreshold = 60.0 seconds, here in nanoseconds
(the Go code compares a float duration in seconds against 60.0; in exact
integer nanoseconds that comparison is `d < 60e9`). -/
def ProblematicSessionThreshold : Int := 60 * 1000000000

/-- MaxSessionAge = 24 * time.Hour, in nanoseconds. -/
def MaxSessionAge : Int := 24 * 60 * 60 * 1000000000

/-- Go `t.Unix()`: seconds since epoch from a nanosecond timestamp. -/
def unixSec (t : Int) : Int := t / 1000000000

/-- parser.EventType constants. -/
inductive EventType where
  | unknown
  | userLogin
  | userDisconnect
  | sessionStart
  | sessionInvalidate
  | vpnIPAssigned
  | authFailed
  | byePacket
  | dpdWarning
  | secModClose
  deriving DecidableEq, Repr

/-- parser.Event. `rxBytes`/`txBytes` are Go `uint64` (values kept in range by
the parser's `ParseUint` model), `port`/`dpdSeconds` are Go `int`. -/
structure Event where
  type : EventType
  timestamp : Int
  server : String
  username : String
  clientIP : String
  port : Int
  vpnIP : String
  sessionID : String
  reason : String
  rxBytes : Nat
  txBytes : Nat
  raw : String
  dpdSeconds : Int
  deriving DecidableEq, Repr

/-- collector.Session. -/
structure Session where
  server : String
  username : String
  clientIP : String
  port : Int
  vpnIP : String
  country : String
  sessionID : String
  startTime : Int
  deriving DecidableEq, Repr

/-- collector.DisconnectRecord. -/
structure DisconnectRecord where
  server : String
  timestamp : Int
  deriving DecidableEq, Repr

/-- collector.WorkerContext. -/
structure WorkerContext where
  username : String
  clientIP : String
  server : String
  hadBye : Bool
  dpdWarning : Bool
  dpdSeconds : Int
  secModClose : Bool
  lastUpdate : Int
  deriving DecidableEq, Repr

/-- Association-list lookup (Go map read): first pair with the given key. -/
def lookupA {α β : Type} [DecidableEq α] : List (α × β) → α → Option β
  | [], _ => none
  | (k', v) :: rest, k => if k' = k then some v else lookupA rest k

/-- Association-list insert (Go map write): overwrite the first pair with the
given key in place, or append when absent. -/
def insertA {α β : Type} [DecidableEq α] : List (α × β) → α → β → List (α × β)
  | [], k, v => [(k, v)]
  | (k', v') :: rest, k, v =>
      if k' = k then (k, v) :: rest else (k', v') :: insertA rest k v

/-- Association-list erase (Go map delete): drop the first pair with the key. -/
def eraseA {α β : Type} [DecidableEq α] : List (α × β) → α → List (α × β)
  | [], _ => []
  | (k', v') :: rest, k => if k' = k then rest else (k', v') :: eraseA rest k

/-- Counter read: a Prometheus counter child that was never written reads 0. -/
def getNat {α : Type} [DecidableEq α] (m : List (α × Nat)) (k : α) : Nat :=
  (lookupA m k).getD 0

/-- Counter `WithLabelValues(k).Add(d)` / `.Inc()` (d = 1). -/
def incN {α : Type} [DecidableEq α] (m : List (α × Nat)) (k : α) (d : Nat) :
    List (α × Nat) :=
  insertA m k (getNat m k + d)

/-- Gauge read, default 0. -/
def getInt {α : Type} [DecidableEq α] (m : List (α × Int)) (k : α) : Int :=
  (lookupA m k).getD 0

/-- Gauge `WithLabelValues(k).Inc()` / `.Dec()` (d = 1 / -1). -/
def addI {α : Type} [DecidableEq α] (m : List (α × Int)) (k : α) (d : Int) :
    List (α × Int) :=
  insertA m k (getInt m k + d)

/-- Histogram `WithLabelValues(k).Observe(v)`: append one observation. -/
def observeH {α : Type} [DecidableEq α] (m : List (α × List Int)) (k : α)
    (v : Int) : List (α × List Int) :=
  insertA m k ((lookupA m k).getD [] ++ [v])

/-- The collector's three tables plus every metric vector its handlers write.
Metric keys are label-value lists, exactly as passed to `WithLabelValues`. -/
structure Collector where
  sessions : List (String × Session)
  lastDisconnects : List (String × DisconnectRecord)
  workerContext : List (String × WorkerContext)
  lastEventTimestamp : Int
  sessionInfo : List (List String × Int)
  activeSessions : List (List String × Int)
  connectionsTotal : List (List String × Nat)
  reconnectsTotal : List (List String × Nat)
  disconnectionsTotal : List (List String × Nat)
  problematicSessionsTotal : List (List String × Nat)
  receivedBytesTotal : List (List String × Nat)
  sentBytesTotal : List (List String × Nat)
  sessionDuration : List (List String × List Int)
  authFailedTotal : List (List String × Nat)
  connectionsByCountry : List (List String × Nat)
  deriving DecidableEq, Repr

/-- collector.New(): empty tables, all metric vectors empty (children at 0). -/
def Collector.new : Collector :=
  { sessions := [], lastDisconnects := [], workerContext := []
    lastEventTimestamp := 0, sessionInfo := [], activeSessions := []
    connectionsTotal := [], reconnectsTotal := [], disconnectionsTotal := []
    problematicSessionsTotal := [], receivedBytesTotal := [], sentBytesTotal := []
    sessionDuration := [], authFailedTotal := [], connectionsByCountry := [] }

/-- The GeoIP resolver interface: `Lookup(ip) -> (country, countryCode)`;
`none` models a collector with no resolver configured. -/
def GeoFn : Type := String → String × String

/-- sessionKey: fmt.Sprintf of server, username, clientIP, port. -/
def sessionKey (server username clientIP : String) (port : Int) : String :=
  server ++ ":" ++ username ++ ":" ++ clientIP ++ ":" ++ toString port

/-- userKey: fmt.Sprintf of server and username (reconnect/disconnect key). -/
def userKey (server username : String) : String :=
  server ++ ":" ++ username

/-- workerContextKey: fmt.Sprintf of server, username, clientIP. -/
def workerContextKey (server username clientIP : String) : String :=
  server ++ ":" ++ username ++ ":" ++ clientIP

/-- Collector.enrichDisconnectReason: when the raw reason is the sentinel
"unspecified error", consult the worker context at `ctxKey` and the sec-mod
(empty client IP) context for this user, in the code's fixed order. -/
def enrichDisconnectReason (wc : List (String × WorkerContext))
    (originalReason ctxKey server username : String) : String :=
  let ctx? := lookupA wc ctxKey
  let secModKey := workerContextKey server username ("")
  let secModCtx? := lookupA wc secModKey
  if originalReason = "unspecified error" then
    if (match secModCtx? with | some c => c.secModClose | none => false) then
      "mobile sleep"
    else if (match ctx? with | some c => c.secModClose | none => false) then
      "mobile sleep"
    else if (match ctx? with | some c => c.hadBye | none => false) then
      "client bye"
    else if (match ctx? with | some c => c.dpdWarning | none => false) then
      "dpd issue"
    else originalReason
  else originalReason

/-- Collector.handleLogin. `geo` is the collector's optional GeoIP resolver. -/
def handleLogin (geo : Option GeoFn) (c : Collector) (event : Event) :
    Collector :=
  let uKey := userKey event.server event.username
  let sKey := sessionKey event.server event.username event.clientIP event.port
  -- reconnect detection against the last disconnect for this user
  let reconnects :=
    match lookupA c.lastDisconnects uKey with
    | some lastDisconnect =>
        if event.timestamp - lastDisconnect.timestamp < ReconnectWindow then
          incN c.reconnectsTotal [event.server, event.username] 1
        else c.reconnectsTotal
    | none => c.reconnectsTotal
  let country := match geo with | some g => (g event.clientIP).1 | none => ""
  let sess : Session :=
    { server := event.server, username := event.username
      clientIP := event.clientIP, port := event.port
      vpnIP := "", country := country, sessionID := "", startTime := event.timestamp }
  let byCountry :=
    match geo with
    | some g =>
        if country ≠ "" then
          incN c.connectionsByCountry
            [event.server, event.username, country, (g event.clientIP).2] 1
        else c.connectionsByCountry
    | none => c.connectionsByCountry
  { c with
      sessions := insertA c.sessions sKey sess
      reconnectsTotal := reconnects
      sessionInfo := insertA c.sessionInfo
        [event.server, event.username, "", country, ""] (unixSec event.timestamp)
      activeSessions := addI c.activeSessions [event.server, event.username] 1
      connectionsTotal :=
        incN c.connectionsTotal [event.server, event.username, event.clientIP] 1
      connectionsByCountry := byCountry }

/-- Collector.handleDisconnect. -/
def handleDisconnect (c : Collector) (event : Event) : Collector :=
  let uKey := userKey event.server event.username
  let key := sessionKey event.server event.username event.clientIP event.port
  let ctxKey := workerContextKey event.server event.username event.clientIP
  let secModKey := workerContextKey event.server event.username ("")
  let found := lookupA c.sessions key
  let sessionExists := found.isSome
  let duration : Int :=
    match found with
    | some session => event.timestamp - session.startTime
    | none => 0
  let durations :=
    match found with
    | some _ =>
        if 0 < duration then
          observeH c.sessionDuration [event.server, event.username] duration
        else c.sessionDuration
    | none => c.sessionDuration
  let sessionInfo' :=
    match found with
    | some session =>
        eraseA c.sessionInfo
          [event.server, event.username, session.vpnIP, session.country, ""]
    | none => c.sessionInfo
  let sessions' :=
    match found with
    | some _ => eraseA c.sessions key
    | none => c.sessions
  let reason :=
    enrichDisconnectReason c.workerContext event.reason ctxKey
      event.server event.username
  let isProblematicReason :=
    reason ≠ "user disconnected" ∧ reason ≠ "client bye" ∧
      reason ≠ "mobile sleep" ∧ reason ≠ ""
  let problematic :=
    if sessionExists ∧ duration < ProblematicSessionThreshold ∧ 0 < duration ∧
        isProblematicReason then
      incN c.problematicSessionsTotal [event.server, event.username, reason] 1
    else c.problematicSessionsTotal
  let active :=
    if sessionExists then
      addI c.activeSessions [event.server, event.username] (-1)
    else c.activeSessions
  { c with
      sessions := sessions'
      lastDisconnects := insertA c.lastDisconnects uKey
        { server := event.server, timestamp := event.timestamp }
      workerContext := eraseA (eraseA c.workerContext ctxKey) secModKey
      sessionInfo := sessionInfo'
      activeSessions := active
      disconnectionsTotal :=
        incN c.disconnectionsTotal [event.server, event.username, reason] 1
      problematicSessionsTotal := problematic
      receivedBytesTotal :=
        incN c.receivedBytesTotal [event.server, event.username] event.rxBytes
      sentBytesTotal :=
        incN c.sentBytesTotal [event.server, event.username] event.txBytes
      sessionDuration := durations }

/-- Collector.handleSessionStart: record into the secondary identifier-keyed
space under key "sid:" + server + ":" + sessionID. -/
def handleSessionStart (c : Collector) (event : Event) : Collector :=
  { c with
      sessions := insertA c.sessions ("sid:" ++ event.server ++ ":" ++ event.sessionID)
        { server := event.server, username := event.username
          clientIP := "", port := 0, vpnIP := "", country := ""
          sessionID := event.sessionID, startTime := event.timestamp } }

/-- The range-loop body of Collector.handleVPNIP: walk the session table in
iteration order, update the first session of this user with an empty VPN IP
(re-keying its session-info gauge child), and stop. -/
def vpnipScan (event : Event) :
    List (String × Session) → List (List String × Int) →
      List (String × Session) × List (List String × Int)
  | [], si => ([], si)
  | (k, session) :: rest, si =>
      if session.username = event.username ∧ session.server = event.server ∧
          session.vpnIP = "" then
        ((k, { session with vpnIP := event.vpnIP }) :: rest,
          insertA
            (eraseA si [session.server, session.username, "", session.country, ""])
            [session.server, session.username, event.vpnIP, session.country, ""]
            (unixSec session.startTime))
      else
        let (rest', si') := vpnipScan event rest si
        ((k, session) :: rest', si')

/-- Collector.handleVPNIP. -/
def handleVPNIP (c : Collector) (event : Event) : Collector :=
  let (sessions', sessionInfo') := vpnipScan event c.sessions c.sessionInfo
  { c with sessions := sessions', sessionInfo := sessionInfo' }

/-- Collector.handleAuthFailed. -/
def handleAuthFailed (geo : Option GeoFn) (c : Collector) (event : Event) :
    Collector :=
  let (country, countryCode) :=
    match geo with
    | none => ("Unknown", "")
    | some g =>
        let (co, cc) := g event.clientIP
        (if co = "" then ("Unknown") else co, cc)
  { c with
      authFailedTotal := incN c.authFailedTotal
        [event.server, event.username, event.clientIP, country, countryCode] 1 }

/-- Collector.getOrCreateWorkerContext. -/
def getOrCreateWorkerContext (wc : List (String × WorkerContext)) (key : String)
    (event : Event) : WorkerContext :=
  match lookupA wc key with
  | some ctx => ctx
  | none =>
      { username := event.username, clientIP := event.clientIP
        server := event.server, hadBye := false, dpdWarning := false
        dpdSeconds := 0, secModClose := false, lastUpdate := event.timestamp }

/-- Collector.handleByePacket. -/
def handleByePacket (c : Collector) (event : Event) : Collector :=
  let key := workerContextKey event.server event.username event.clientIP
  let ctx := getOrCreateWorkerContext c.workerContext key event
  let ctx' := { ctx with hadBye := true, lastUpdate := event.timestamp }
  { c with workerContext := insertA c.workerContext key ctx' }

/-- Collector.handleDPDWarning. -/
def handleDPDWarning (c : Collector) (event : Event) : Collector :=
  let key := workerContextKey event.server event.username event.clientIP
  let ctx := getOrCreateWorkerContext c.workerContext key event
  let ctx' :=
    { ctx with dpdWarning := true, dpdSeconds := event.dpdSeconds
               lastUpdate := event.timestamp }
  { c with workerContext := insertA c.workerContext key ctx' }

/-- Collector.handleSecModClose: flag every worker context of this user, then
ensure the empty-client-IP context exists and is flagged. -/
def handleSecModClose (c : Collector) (event : Event) : Collector :=
  let wc1 := c.workerContext.map (fun p =>
    if p.2.username = event.username ∧ p.2.server = event.server then
      (p.1, { p.2 with secModClose := true, lastUpdate := event.timestamp })
    else p)
  let key := workerContextKey event.server event.username ("")
  let wc2 :=
    match lookupA wc1 key with
    | some _ => wc1
    | none =>
        insertA wc1 key
          { username := event.username, clientIP := "", server := event.server
            hadBye := false, dpdWarning := false, dpdSeconds := 0
            secModClose := true, lastUpdate := event.timestamp }
  { c with workerContext := wc2 }

/-- Collector.ProcessEvent: set the liveness gauge, then dispatch by kind.
The switch has no case for `sessionInvalidate` (or `unknown`). -/
def ProcessEvent (geo : Option GeoFn) (c : Collector) (event : Event) :
    Collector :=
  let c1 := { c with lastEventTimestamp := unixSec event.timestamp }
  match event.type with
  | .userLogin => handleLogin geo c1 event
  | .userDisconnect => handleDisconnect c1 event
  | .sessionStart => handleSessionStart c1 event
  | .vpnIPAssigned => handleVPNIP c1 event
  | .authFailed => handleAuthFailed geo c1 event
  | .byePacket => handleByePacket c1 event
  | .dpdWarning => handleDPDWarning c1 event
  | .secModClose => handleSecModClose c1 event
  | .sessionInvalidate => c1
  | .unknown => c1

/-- Go's `len(k) > 4 && k[:4] == "sid:"` on the session-table key: the first
four bytes are "sid:" (all ASCII, so bytes and chars agree) and at least one
more byte follows. -/
def isSidKey (k : String) : Bool :=
  decide (4 < k.data.length) && decide (k.data.take 4 = ['s', 'i', 'd', ':'])

/-- A server/partition name whose first four bytes are "sid:" (the condition,
together with being literally "sid", under which a primary session key
collides with the "sid:"-prefixed secondary key space). -/
def startsSidColon (s : String) : Bool :=
  decide (s.data.take 4 = ['s', 'i', 'd', ':'])

/-- The keep-or-evict test of the stale-session pass of
Collector.CleanupOldDisconnects: session-ID entries are skipped, other
sessions are kept iff not older than MaxSessionAge. -/
def keepSession (now : Int) (p : String × Session) : Bool :=
  isSidKey p.1 || !(decide (MaxSessionAge < now - p.2.startTime))

/-- The stale-session range loop of Collector.CleanupOldDisconnects: evicted
sessions also lose their session-info gauge child and decrement the
active-session gauge. -/
def sweepSessions (now : Int) :
    List (String × Session) → List (List String × Int) →
      List (List String × Int) →
      List (String × Session) × List (List String × Int) × List (List String × Int)
  | [], si, act => ([], si, act)
  | (k, session) :: rest, si, act =>
      if keepSession now (k, session) then
        let (rest', si', act') := sweepSessions now rest si act
        ((k, session) :: rest', si', act')
      else
        sweepSessions now rest
          (eraseA si
            [session.server, session.username, session.vpnIP, session.country, ""])
          (addI act [session.server, session.username] (-1))

/-- Collector.CleanupOldDisconnects: the three sweeper passes (stale
disconnect records, stale worker contexts, stale sessions), at time `now`. -/
def CleanupOldDisconnects (c : Collector) (now : Int) : Collector :=
  let ld := c.lastDisconnects.filter
    (fun p => !(decide (ReconnectWindow * 2 < now - p.2.timestamp)))
  let wc := c.workerContext.filter
    (fun p => !(decide (ReconnectWindow * 2 < now - p.2.lastUpdate)))
  let swept := sweepSessions now c.sessions c.sessionInfo c.activeSessions
  { c with
      lastDisconnects := ld, workerContext := wc
      sessions := swept.1, sessionInfo := swept.2.1, activeSessions := swept.2.2 }

/-- Decimal digit-string test: nonempty and all ASCII digits (the shape of
every numeric capture group `(\d+)` in the parser's patterns). -/
def isDigits (s : String) : Bool :=
  !(s.data == []) && s.data.all (fun c => c.isDigit)

/-- Numeric value of a decimal digit string. -/
def digitsToNat (s : String) : Nat :=
  s.data.foldl (fun n c => n * 10 + (c.toNat - 48)) 0

/-- Go `strconv.ParseUint(s, 10, 64)` with its error discarded, as the parser
does for rx/tx byte counts. On a decimal digit string the only possible
failure is range overflow, for which ParseUint returns the maximum uint64
together with ErrRange; a string that is not a plain digit string is a syntax
error returning 0 (signs never occur in the `(\d+)` captures modelled here). -/
def goParseUint64 (s : String) : Nat :=
  if isDigits s then min (digitsToNat s) (2 ^ 64 - 1) else 0

/-- Go `strconv.Atoi` (= ParseInt with bitSize 0, i.e. 64 on the exporter's
64-bit build) with its error discarded, on the same capture shapes: digit
strings saturate at the maximum int64 on range overflow, anything else is a
syntax error returning 0. -/
def goAtoi (s : String) : Int :=
  if isDigits s then ((min (digitsToNat s) (2 ^ 63 - 1) : Nat) : Int) else 0

/-- The disconnect branch of parser.Parse (lines building the event from the
submatches of `reDisconnect`): numeric conversion errors are ignored. -/
def mkDisconnectEvent (ts : Int) (server raw : String)
    (username clientIP portStr reason rxStr txStr : String) : Event :=
  { type := .userDisconnect, timestamp := ts, server := server, raw := raw
    username := username, clientIP := clientIP, port := goAtoi portStr
    vpnIP := "", sessionID := "", reason := reason
    rxBytes := goParseUint64 rxStr, txBytes := goParseUint64 txStr
    dpdSeconds := 0 }

/-- The DPD-warning branch of parser.Parse (submatches of `reDPDWarning`). -/
def mkDPDWarningEvent (ts : Int) (server raw : String)
    (username clientIP secsStr : String) : Event :=
  { type := .dpdWarning, timestamp := ts, server := server, raw := raw
    username := username, clientIP := clientIP, port := 0
    vpnIP := "", sessionID := "", reason := ""
    rxBytes := 0, txBytes := 0, dpdSeconds := goAtoi secsStr }

/-- An event value with every field zero/empty, used as the base of concrete
test events (mirrors the zero-value `parser.Event` before fields are set). -/
def baseEvent : Event :=
  { type := .unknown, timestamp := 0, server := "", username := ""
    clientIP := "", port := 0, vpnIP := "", sessionID := "", reason := ""
    rxBytes := 0, txBytes := 0, raw := "", dpdSeconds := 0 }

/-- Flag read used to state the claim about reason enrichment: the given
Boolean field of the worker context stored under `k`, false when absent. -/
def ctxFlag (wc : List (String × WorkerContext)) (k : String)
    (f : WorkerContext → Bool) : Bool :=
  match lookupA wc k with
  | some c => f c
  | none => false

/-- Written from the spec's words for comparison with the source-derived
`enrichDisconnectReason`: for the sentinel raw reason, the pause flag (on
either context entry) wins, then the bye flag, then the DPD flag; any other
raw reason is left unchanged. -/
def specEnrichDisconnectReason (pauseEither byeFlag dpdFlag : Bool)
    (raw : String) : String :=
  if raw = "unspecified error" then
    if pauseEither then ("mobile sleep")
    else if byeFlag then ("client bye")
    else if dpdFlag then ("dpd issue")
    else raw
  else raw

/-- Concrete events and states used by the counterexamples and witnesses. -/
def c4login1 : Event :=
  { baseEvent with type := .userLogin, timestamp := 1000000000
                   server := "ocserv", username := "alice"
                   clientIP := "1.1.1.1", port := 1 }

/-- Second login of the same user from another address and port. -/
def c4login2 : Event :=
  { baseEvent with type := .userLogin, timestamp := 2000000000
                   server := "ocserv", username := "alice"
                   clientIP := "2.2.2.2", port := 2 }

/-- Disconnect matching the first login's key. -/
def c4disc1 : Event :=
  { baseEvent with type := .userDisconnect, timestamp := 3000000000
                   server := "ocserv", username := "alice"
                   clientIP := "1.1.1.1", port := 1
                   reason := "user disconnected" }

/-- Disconnect matching the second login's key. -/
def c4disc2 : Event :=
  { baseEvent with type := .userDisconnect, timestamp := 4000000000
                   server := "ocserv", username := "alice"
                   clientIP := "2.2.2.2", port := 2
                   reason := "user disconnected" }

/-- State after login, login (same user, two ports), and the first disconnect:
both logins share one session-info gauge child, already deleted by the first
disconnect. -/
def c4state : Collector :=
  ProcessEvent none
    (ProcessEvent none (ProcessEvent none Collector.new c4login1) c4login2)
    c4disc1

/-- A session-manager invalidate event. -/
def invalidateEvent : Event :=
  { baseEvent with type := .sessionInvalidate, timestamp := 5000000000
                   server := "ocserv", username := "alice"
                   sessionID := "abc" }

/-- SessionStart on partition "x" whose session identifier contains colons. -/
def c10start : Event :=
  { baseEvent with type := .sessionStart, timestamp := 1000000000
                   server := "x", username := "y"
                   sessionID := "y:1.2.3.4:5" }

/-- Disconnect on a partition named "sid:x" (distinct from "sid") whose
primary session key collides with the secondary key of `c10start`. -/
def c10disc : Event :=
  { baseEvent with type := .userDisconnect, timestamp := 2000000000
                   server := "sid:x", username := "y"
                   clientIP := "1.2.3.4", port := 5, reason := "r" }

/-- A primary session that started at time 0. -/
def staleSession : Session :=
  { server := "ocserv", username := "alice", clientIP := "1.1.1.1", port := 1
    vpnIP := "", country := "", sessionID := "", startTime := 0 }

/-- A collector holding exactly that session and its metric children. -/
def staleCollector : Collector :=
  { Collector.new with
      sessions := [("ocserv:alice:1.1.1.1:1", staleSession)]
      sessionInfo := [(["ocserv", "alice", "", "", ""], 0)]
      activeSessions := [(["ocserv", "alice"], 1)] }

/-- A login event for the same user and key. -/
def loginEvent : Event :=
  { baseEvent with type := .userLogin, timestamp := 20000000000
                   server := "ocserv", username := "alice"
                   clientIP := "1.1.1.1", port := 1 }

/-- A disconnect event for the same user and key, before `loginEvent`. -/
def discEvent : Event :=
  { baseEvent with type := .userDisconnect, timestamp := 10000000000
                   server := "ocserv", username := "alice"
                   clientIP := "1.1.1.1", port := 1
                   reason := "user disconnected" }

/-- The lightweight entry `handleSessionStart` records under "sid:ocserv:abc". -/
def sidSession : Session :=
  { server := "ocserv", username := "alice", clientIP := "", port := 0
    vpnIP := "", country := "", sessionID := "abc"
    startTime := 3000000000 }

/-- A VPN-IP assignment event for the same user. -/
def vpnEvent : Event :=
  { baseEvent with type := .vpnIPAssigned, timestamp := 4000000000
                   server := "ocserv", username := "alice"
                   vpnIP := "10.0.0.5" }

/-- A collector whose only session-table entry is the secondary `sidSession`. -/
def sidCollector : Collector :=
  { Collector.new with sessions := [("sid:ocserv:abc", sidSession)] }

section AssocLemmas

variable {α β : Type} [DecidableEq α]

theorem lookupA_insertA_self (m : List (α × β)) (k : α) (v : β) :
    lookupA (insertA m k v) k = some v := by
  induction m with
  | nil => simp [insertA, lookupA]
  | cons p rest ih =>
      obtain ⟨a, b⟩ := p
      by_cases h : a = k
      · simp [insertA, h, lookupA]
      · simp [insertA, h, lookupA, ih]

theorem lookupA_insertA_ne (m : List (α × β)) {k k' : α} (v : β) (h : k' ≠ k) :
    lookupA (insertA m k v) k' = lookupA m k' := by
  have hk : k ≠ k' := Ne.symm h
  induction m with
  | nil => simp [insertA, lookupA, hk]
  | cons p rest ih =>
      obtain ⟨a, b⟩ := p
      by_cases ha : a = k
      · subst ha
        simp [insertA, lookupA, hk]
      · simp [insertA, ha, lookupA, ih]

theorem lookupA_eraseA_ne (m : List (α × β)) {k k' : α} (h : k' ≠ k) :
    lookupA (eraseA m k) k' = lookupA m k' := by
  have hk : k ≠ k' := Ne.symm h
  induction m with
  | nil => simp [eraseA]
  | cons p rest ih =>
      obtain ⟨a, b⟩ := p
      by_cases ha : a = k
      · subst ha
        simp [eraseA, lookupA, hk]
      · simp [eraseA, ha, lookupA, ih]

theorem isSome_lookupA_insertA (m : List (α × β)) (k k' : α) (v : β)
    (h : (lookupA m k).isSome) : (lookupA (insertA m k' v) k).isSome := by
  by_cases hk : k = k'
  · subst hk
    simp [lookupA_insertA_self]
  · rwa [lookupA_insertA_ne m v hk]

theorem length_insertA_isSome (m : List (α × β)) (k : α) (v : β)
    (h : (lookupA m k).isSome) : (insertA m k v).length = m.length := by
  induction m with
  | nil => simp [lookupA] at h
  | cons p rest ih =>
      obtain ⟨a, b⟩ := p
      by_cases ha : a = k
      · simp [insertA, ha]
      · simp only [lookupA, if_neg ha] at h
        simp [insertA, ha, ih h]

theorem getNat_incN_self (m : List (α × Nat)) (k : α) (d : Nat) :
    getNat (incN m k d) k = getNat m k + d := by
  simp [getNat, incN, lookupA_insertA_self]

theorem getNat_incN_ne (m : List (α × Nat)) {k k' : α} (d : Nat) (h : k' ≠ k) :
    getNat (incN m k d) k' = getNat m k' := by
  simp [getNat, incN, lookupA_insertA_ne _ _ h]

theorem getInt_addI_self (m : List (α × Int)) (k : α) (d : Int) :
    getInt (addI m k d) k = getInt m k + d := by
  simp [getInt, addI, lookupA_insertA_self]

theorem getInt_addI_ne (m : List (α × Int)) {k k' : α} (d : Int) (h : k' ≠ k) :
    getInt (addI m k d) k' = getInt m k' := by
  simp [getInt, addI, lookupA_insertA_ne _ _ h]

end AssocLemmas

/-- Claim C1: for a Disconnect whose raw reason is the sentinel
"unspecified error", the enriched reason is computed from the worker context
of `(partition, username, clientIP)` and the IP-less variant in fixed
priority order — a session-manager-pause flag on either entry gives
"mobile sleep" (so pause beats bye), else the bye-packet flag gives
"client bye", else the DPD-warning flag gives "dpd issue", else the raw
reason; any raw reason other than the sentinel is returned unchanged. -/
theorem claim1_enrichment_priority (wc : List (String × WorkerContext))
    (reason server username clientIP : String) :
    enrichDisconnectReason wc reason
        (workerContextKey server username clientIP) server username =
      specEnrichDisconnectReason
        (ctxFlag wc (workerContextKey server username ("")) (fun c => c.secModClose) ||
          ctxFlag wc (workerContextKey server username clientIP) (fun c => c.secModClose))
        (ctxFlag wc (workerContextKey server username clientIP) (fun c => c.hadBye))
        (ctxFlag wc (workerContextKey server username clientIP) (fun c => c.dpdWarning))
        reason := by
  unfold enrichDisconnectReason specEnrichDisconnectReason ctxFlag
  rcases h1 : lookupA wc (workerContextKey server username ("")) with _ | c1 <;>
    rcases h2 : lookupA wc (workerContextKey server username clientIP) with _ | c2 <;>
    simp only [h1, h2] <;>
    first
      | rfl
      | (cases hs1 : c1.secModClose <;> simp [hs1])

/-- Claim C3: the reconnect counter increments exactly when a
DisconnectRecord exists for `(partition, username)` and the login is within
the 5-minute window of it; a login with no prior disconnect never
increments it; and a qualifying Disconnect-then-Login pair increments the
counter by exactly one. -/
theorem claim3_reconnect_counting (geo : Option GeoFn) (c : Collector) (event : Event) :
    ((handleLogin geo c event).reconnectsTotal =
      (match lookupA c.lastDisconnects (userKey event.server event.username) with
       | some lastDisconnect =>
           if event.timestamp - lastDisconnect.timestamp < ReconnectWindow then
             incN c.reconnectsTotal [event.server, event.username] 1
           else c.reconnectsTotal
       | none => c.reconnectsTotal)) ∧
    (lookupA c.lastDisconnects (userKey event.server event.username) = none →
      (handleLogin geo c event).reconnectsTotal = c.reconnectsTotal) ∧
    (∀ d : Event, d.server = event.server → d.username = event.username →
      event.timestamp - d.timestamp < ReconnectWindow →
        getNat (handleLogin geo (handleDisconnect c d) event).reconnectsTotal
            [event.server, event.username] =
          getNat c.reconnectsTotal [event.server, event.username] + 1) := by
  refine ⟨rfl, ?_, ?_⟩
  · intro h
    simp [handleLogin, h]
  · intro d hs hu ht
    have hrec : (handleDisconnect c d).reconnectsTotal = c.reconnectsTotal := rfl
    have hld : (handleDisconnect c d).lastDisconnects =
        insertA c.lastDisconnects (userKey d.server d.username)
          { server := d.server, timestamp := d.timestamp } := rfl
    simp [handleLogin, hld, hs, hu, lookupA_insertA_self, ht, hrec,
      getNat_incN_self]

/-- Claim C2: the problematic-session counter increments exactly when the
Session was found under the primary key, 0 < duration < 60 s (here in
nanoseconds), and the enriched reason is none of "user disconnected",
"client bye", "mobile sleep" or the empty string; otherwise the counter
vector is left untouched. -/
theorem claim2_problematic_counting (c : Collector) (event : Event) :
    (handleDisconnect c event).problematicSessionsTotal =
      (match lookupA c.sessions
          (sessionKey event.server event.username event.clientIP event.port) with
       | some session =>
           let duration := event.timestamp - session.startTime
           let reason := enrichDisconnectReason c.workerContext event.reason
             (workerContextKey event.server event.username event.clientIP)
             event.server event.username
           if 0 < duration ∧ duration < ProblematicSessionThreshold ∧
               reason ≠ "user disconnected" ∧ reason ≠ "client bye" ∧
               reason ≠ "mobile sleep" ∧ reason ≠ "" then
             incN c.problematicSessionsTotal [event.server, event.username, reason] 1
           else c.problematicSessionsTotal
       | none => c.problematicSessionsTotal) := by
  unfold handleDisconnect
  rcases h : lookupA c.sessions
      (sessionKey event.server event.username event.clientIP event.port)
    with _ | s
  · simp [h]
  · simp only [h, Option.isSome_some]
    split_ifs <;> first | rfl | tauto

theorem insertA_cons_eq {α β : Type} [DecidableEq α] (rest : List (α × β))
    (k : α) (b v : β) : insertA ((k, b) :: rest) k v = (k, v) :: rest := by
  simp [insertA]

theorem insertA_cons_ne {α β : Type} [DecidableEq α] (rest : List (α × β))
    {a k : α} (b : β) (v : β) (ha : a ≠ k) :
    insertA ((a, b) :: rest) k v = (a, b) :: insertA rest k v := by
  simp [insertA, ha]

theorem lookupA_eq_none_of_not_mem_keys {α β : Type} [DecidableEq α]
    (m : List (α × β)) (k : α) (h : k ∉ m.map Prod.fst) :
    lookupA m k = none := by
  induction m with
  | nil => rfl
  | cons p rest ih =>
      obtain ⟨a, b⟩ := p
      simp only [List.map_cons, List.mem_cons] at h
      push_neg at h
      simp [lookupA, Ne.symm h.1, ih h.2]

theorem mem_keys_insertA {α β : Type} [DecidableEq α] (m : List (α × β))
    (k a : α) (v : β) (ha : a ≠ k) (h : a ∉ m.map Prod.fst) :
    a ∉ (insertA m k v).map Prod.fst := by
  induction m with
  | nil => simpa [insertA]
  | cons p rest ih =>
      obtain ⟨x, y⟩ := p
      simp only [List.map_cons, List.mem_cons] at h
      push_neg at h
      by_cases hx : x = k
      · subst hx
        rw [insertA_cons_eq]
        simp only [List.map_cons, List.mem_cons]
        push_neg
        exact ⟨ha, h.2⟩
      · rw [insertA_cons_ne rest y v hx]
        simp only [List.map_cons, List.mem_cons]
        push_neg
        exact ⟨h.1, ih h.2⟩

theorem nodup_keys_insertA {α β : Type} [DecidableEq α] (m : List (α × β))
    (k : α) (v : β) (h : (m.map Prod.fst).Nodup) :
    ((insertA m k v).map Prod.fst).Nodup := by
  induction m with
  | nil => simp [insertA]
  | cons p rest ih =>
      obtain ⟨a, b⟩ := p
      simp only [List.map_cons, List.nodup_cons] at h
      by_cases ha : a = k
      · subst ha
        rw [insertA_cons_eq]
        simp only [List.map_cons, List.nodup_cons]
        exact h
      · rw [insertA_cons_ne rest b v ha]
        simp only [List.map_cons, List.nodup_cons]
        exact ⟨mem_keys_insertA rest k a v ha h.1, ih h.2⟩

theorem lookupA_eraseA_self {α β : Type} [DecidableEq α] (m : List (α × β))
    (k : α) (h : (m.map Prod.fst).Nodup) : lookupA (eraseA m k) k = none := by
  induction m with
  | nil => rfl
  | cons p rest ih =>
      obtain ⟨a, b⟩ := p
      simp only [List.map_cons, List.nodup_cons] at h
      by_cases ha : a = k
      · subst ha
        simp only [eraseA, if_pos rfl]
        exact lookupA_eq_none_of_not_mem_keys rest a h.1
      · simp [eraseA, ha, lookupA, ih h.2]

/-- Claim C4 (amended): when a Disconnect finds a Session under the primary
key, the session-info gauge child for that session's labels is deleted
(removing one entry when present — possibly zero if a same-label session
already removed it), the active-session gauge decrements by one and the
Session is erased; when no Session is found none of those three change; in
both cases the DisconnectRecord is overwritten with the event timestamp, the
disconnection counter labelled by the enriched reason increments, the rx/tx
byte totals grow by the event's counts, and both worker-context keys are
deleted. -/
theorem claim4_disconnect_effects (c : Collector) (event : Event) :
    (match lookupA c.sessions
        (sessionKey event.server event.username event.clientIP event.port) with
     | some session =>
         (handleDisconnect c event).sessionInfo =
           eraseA c.sessionInfo
             [event.server, event.username, session.vpnIP, session.country, ""] ∧
         getInt (handleDisconnect c event).activeSessions
             [event.server, event.username] =
           getInt c.activeSessions [event.server, event.username] - 1 ∧
         (handleDisconnect c event).sessions = eraseA c.sessions
           (sessionKey event.server event.username event.clientIP event.port)
     | none =>
         (handleDisconnect c event).sessionInfo = c.sessionInfo ∧
         (handleDisconnect c event).activeSessions = c.activeSessions ∧
         (handleDisconnect c event).sessions = c.sessions) ∧
    (handleDisconnect c event).lastDisconnects =
      insertA c.lastDisconnects (userKey event.server event.username)
        { server := event.server, timestamp := event.timestamp } ∧
    getNat (handleDisconnect c event).disconnectionsTotal
        [event.server, event.username,
          enrichDisconnectReason c.workerContext event.reason
            (workerContextKey event.server event.username event.clientIP)
            event.server event.username] =
      getNat c.disconnectionsTotal
        [event.server, event.username,
          enrichDisconnectReason c.workerContext event.reason
            (workerContextKey event.server event.username event.clientIP)
            event.server event.username] + 1 ∧
    getNat (handleDisconnect c event).receivedBytesTotal
        [event.server, event.username] =
      getNat c.receivedBytesTotal [event.server, event.username] +
        event.rxBytes ∧
    getNat (handleDisconnect c event).sentBytesTotal
        [event.server, event.username] =
      getNat c.sentBytesTotal [event.server, event.username] + event.txBytes ∧
    (handleDisconnect c event).workerContext =
      eraseA
        (eraseA c.workerContext
          (workerContextKey event.server event.username event.clientIP))
        (workerContextKey event.server event.username ("")) := by
  refine ⟨?_, rfl, ?_, ?_, ?_, rfl⟩
  · rcases h : lookupA c.sessions
        (sessionKey event.server event.username event.clientIP event.port)
      with _ | s
    · exact ⟨by simp [handleDisconnect, h], by simp [handleDisconnect, h],
        by simp [handleDisconnect, h]⟩
    · exact ⟨by simp [handleDisconnect, h], by
        simp [handleDisconnect, h, getInt_addI_self]; ring, by
        simp [handleDisconnect, h]⟩
  · simp [handleDisconnect, getNat_incN_self]
  · simp [handleDisconnect, getNat_incN_self]
  · simp [handleDisconnect, getNat_incN_self]

/-- Claim C9: a Login whose primary key already has a Session leaves the
session-table size unchanged (the entry is overwritten, last login wins)
while the active-session gauge and total-connection counter still increment;
consequently Login, Login, Disconnect on one key leaves no entry for that
key but a net active-session increase of one. -/
theorem claim9_login_overwrite (geo : Option GeoFn) (c : Collector) (event : Event)
    (hnd : (c.sessions.map Prod.fst).Nodup)
    (h : (lookupA c.sessions
      (sessionKey event.server event.username event.clientIP event.port)).isSome) :
    ((handleLogin geo c event).sessions.length = c.sessions.length) ∧
    (lookupA (handleLogin geo c event).sessions
        (sessionKey event.server event.username event.clientIP event.port) =
      some { server := event.server, username := event.username
             clientIP := event.clientIP, port := event.port, vpnIP := ""
             country := match geo with | some g => (g event.clientIP).1 | none => ""
             sessionID := "", startTime := event.timestamp }) ∧
    (getInt (handleLogin geo c event).activeSessions
        [event.server, event.username] =
      getInt c.activeSessions [event.server, event.username] + 1) ∧
    (getNat (handleLogin geo c event).connectionsTotal
        [event.server, event.username, event.clientIP] =
      getNat c.connectionsTotal
        [event.server, event.username, event.clientIP] + 1) ∧
    (∀ t2 t3 : Int, ∀ r3 : String, ∀ rx tx : Nat,
      lookupA
          (handleDisconnect
            (handleLogin geo (handleLogin geo c event)
              { event with timestamp := t2 })
            { event with timestamp := t3, reason := r3
                         rxBytes := rx, txBytes := tx }).sessions
          (sessionKey event.server event.username event.clientIP event.port) =
        none ∧
      getInt (handleDisconnect
            (handleLogin geo (handleLogin geo c event)
              { event with timestamp := t2 })
            { event with timestamp := t3, reason := r3
                         rxBytes := rx, txBytes := tx }).activeSessions
          [event.server, event.username] =
        getInt c.activeSessions [event.server, event.username] + 1) := by
  refine ⟨?_, ?_, ?_, ?_, ?_⟩
  · simp [handleLogin, length_insertA_isSome _ _ _ h]
  · simp [handleLogin, lookupA_insertA_self]
  · simp [handleLogin, getInt_addI_self]
  · simp [handleLogin, getNat_incN_self]
  · intro t2 t3 r3 rx tx
    constructor
    · simp [handleLogin, handleDisconnect, lookupA_insertA_self,
        lookupA_eraseA_self _ _
          (nodup_keys_insertA _ _ _ (nodup_keys_insertA _ _ _ hnd))]
    · simp [handleLogin, handleDisconnect, lookupA_insertA_self,
        getInt_addI_self]

theorem sweepSessions_keep_all (now : Int) (l : List (String × Session))
    (si act : List (List String × Int))
    (h : ∀ p ∈ l, keepSession now p = true) :
    sweepSessions now l si act = (l, si, act) := by
  induction l generalizing si act with
  | nil => rfl
  | cons p rest ih =>
      obtain ⟨k, s⟩ := p
      have hk := h (k, s) (List.mem_cons_self _ _)
      simp only [sweepSessions, hk, if_pos]
      rw [ih si act (fun q hq => h q (List.mem_cons_of_mem _ hq))]

theorem sweepSessions_fst (now : Int) (l : List (String × Session))
    (si act : List (List String × Int)) :
    (sweepSessions now l si act).1 = l.filter (keepSession now) := by
  induction l generalizing si act with
  | nil => rfl
  | cons p rest ih =>
      obtain ⟨k, s⟩ := p
      by_cases hk : keepSession now (k, s) = true
      · simp [sweepSessions, hk, List.filter_cons, ih]
      · have hk' : keepSession now (k, s) = false := by
          simpa using hk
        simp [sweepSessions, hk', List.filter_cons, ih]

theorem sweep_of_sweep (now : Int) (l : List (String × Session))
    (si act : List (List String × Int)) :
    sweepSessions now (sweepSessions now l si act).1
        (sweepSessions now l si act).2.1 (sweepSessions now l si act).2.2 =
      sweepSessions now l si act := by
  have h : ∀ p ∈ (sweepSessions now l si act).1, keepSession now p = true := by
    intro p hp
    rw [sweepSessions_fst] at hp
    exact List.of_mem_filter hp
  rw [sweepSessions_keep_all now _ _ _ h]

theorem filter_self_idem {γ : Type} (p : γ → Bool) (l : List γ) :
    (l.filter p).filter p = l.filter p := by
  rw [List.filter_filter]
  simp

theorem cleanup_idem (c : Collector) (now : Int) :
    CleanupOldDisconnects (CleanupOldDisconnects c now) now =
      CleanupOldDisconnects c now := by
  unfold CleanupOldDisconnects
  simp only [filter_self_idem, sweep_of_sweep]

theorem not_mem_keys_filter {γ : Type} [DecidableEq γ] {β : Type}
    (l : List (γ × β)) (p : γ × β → Bool) (k : γ)
    (h : k ∉ l.map Prod.fst) : k ∉ (l.filter p).map Prod.fst := by
  intro hmem
  apply h
  obtain ⟨q, hq, hqk⟩ := List.mem_map.mp hmem
  exact List.mem_map.mpr ⟨q, List.mem_of_mem_filter hq, hqk⟩

theorem lookupA_filter_none {β : Type} (l : List (String × β))
    (p : String × β → Bool) (k : String) (s : β)
    (hmem : (k, s) ∈ l) (hp : p (k, s) = false)
    (hnd : (l.map Prod.fst).Nodup) : lookupA (l.filter p) k = none := by
  induction l with
  | nil => simp at hmem
  | cons q rest ih =>
      obtain ⟨a, b⟩ := q
      simp only [List.map_cons, List.nodup_cons] at hnd
      rcases List.mem_cons.mp hmem with heq | hrest
      · injection heq with h1 h2
        subst h1
        subst h2
        rw [List.filter_cons_of_neg (by simp [hp])]
        exact lookupA_eq_none_of_not_mem_keys _ _
          (not_mem_keys_filter rest p k hnd.1)
      · have ha : a ≠ k := by
          intro hak
          subst hak
          exact hnd.1 (List.mem_map.mpr ⟨(a, s), hrest, rfl⟩)
        by_cases hq : p (a, b) = true
        · rw [List.filter_cons_of_pos hq]
          simp [lookupA, ha, ih hrest hnd.2]
        · rw [List.filter_cons_of_neg (by simpa using hq)]
          exact ih hrest hnd.2

theorem cleanup_sessions_def (c : Collector) (now : Int) :
    (CleanupOldDisconnects c now).sessions =
      (sweepSessions now c.sessions c.sessionInfo c.activeSessions).1 := rfl

theorem cleanup_sessionInfo_def (c : Collector) (now : Int) :
    (CleanupOldDisconnects c now).sessionInfo =
      (sweepSessions now c.sessions c.sessionInfo c.activeSessions).2.1 := rfl

theorem cleanup_activeSessions_def (c : Collector) (now : Int) :
    (CleanupOldDisconnects c now).activeSessions =
      (sweepSessions now c.sessions c.sessionInfo c.activeSessions).2.2 := rfl

theorem sweepSessions_single_evict (now : Int) (l : List (String × Session))
    (si act : List (List String × Int)) (k : String) (s : Session)
    (hmem : (k, s) ∈ l) (hkeep : keepSession now (k, s) = false)
    (hothers : ∀ p ∈ l, p ≠ (k, s) → keepSession now p = true)
    (hnd : (l.map Prod.fst).Nodup) :
    (sweepSessions now l si act).2.1 =
        eraseA si [s.server, s.username, s.vpnIP, s.country, ""] ∧
      (sweepSessions now l si act).2.2 = addI act [s.server, s.username] (-1) := by
  induction l generalizing si act with
  | nil => simp at hmem
  | cons q rest ih =>
      obtain ⟨a, b⟩ := q
      simp only [List.map_cons, List.nodup_cons] at hnd
      rcases List.mem_cons.mp hmem with heq | hrest
      · injection heq with h1 h2
        subst h1
        subst h2
        have hall : ∀ p ∈ rest, keepSession now p = true := by
          intro p hp
          refine hothers p (List.mem_cons_of_mem _ hp) ?_
          intro hpe
          subst hpe
          exact hnd.1 (List.mem_map.mpr ⟨(k, s), hp, rfl⟩)
        simp [sweepSessions, hkeep, sweepSessions_keep_all now rest _ _ hall]
      · have ha : (a, b) ≠ (k, s) := by
          intro h
          injection h with h1 h2
          apply hnd.1
          rw [h1]
          exact List.mem_map.mpr ⟨(k, s), hrest, rfl⟩
        have hka := hothers (a, b) (List.mem_cons_self _ _) ha
        simp only [sweepSessions, hka, if_pos]
        exact ih si act hrest
          (fun p hp hne => hothers p (List.mem_cons_of_mem _ hp) hne) hnd.2

/-- Claim C7: the sweep is idempotent — running it twice at the same
instant changes nothing after the first run — and a primary-keyed Session
older than MaxSessionAge is removed by the first pass, which also deletes
its session-info gauge child and decrements the active-session gauge exactly
once; by idempotence repeated sweeps never decrement it again. -/
theorem claim7_sweeper_cleanup (c : Collector) (now : Int) (k : String) (s : Session)
    (hmem : (k, s) ∈ c.sessions)
    (hsid : isSidKey k = false)
    (hold : MaxSessionAge < now - s.startTime)
    (hothers : ∀ p ∈ c.sessions, p ≠ (k, s) → keepSession now p = true)
    (hnd : (c.sessions.map Prod.fst).Nodup) :
    (∀ (c' : Collector) (now' : Int),
      CleanupOldDisconnects (CleanupOldDisconnects c' now') now' =
        CleanupOldDisconnects c' now') ∧
    lookupA (CleanupOldDisconnects c now).sessions k = none ∧
    (CleanupOldDisconnects c now).sessionInfo =
      eraseA c.sessionInfo [s.server, s.username, s.vpnIP, s.country, ""] ∧
    (CleanupOldDisconnects c now).activeSessions =
      addI c.activeSessions [s.server, s.username] (-1) := by
  have hkeep : keepSession now (k, s) = false := by
    simp [keepSession, hsid, hold]
  refine ⟨fun c' now' => cleanup_idem c' now', ?_, ?_, ?_⟩
  · rw [cleanup_sessions_def, sweepSessions_fst]
    exact lookupA_filter_none _ _ _ _ hmem hkeep hnd
  · rw [cleanup_sessionInfo_def]
    exact (sweepSessions_single_evict now c.sessions c.sessionInfo
      c.activeSessions k s hmem hkeep hothers hnd).1
  · rw [cleanup_activeSessions_def]
    exact (sweepSessions_single_evict now c.sessions c.sessionInfo
      c.activeSessions k s hmem hkeep hothers hnd).2

theorem sessionKey_data (server username clientIP : String) (port : Int) :
    (sessionKey server username clientIP port).data =
      server.data ++ ':' :: (username.data ++ ':' ::
        (clientIP.data ++ ':' :: (toString port).data)) := by
  simp [sessionKey, String.data_append]

theorem sessionKey_not_sid (server username clientIP : String) (port : Int)
    (h1 : server ≠ "sid") (h2 : startsSidColon server = false) :
    isSidKey (sessionKey server username clientIP port) = false := by
  have hdata := sessionKey_data server username clientIP port
  rcases hsrv : server.data with _ | ⟨c1, _ | ⟨c2, _ | ⟨c3, _ | ⟨c4, t⟩⟩⟩⟩ <;>
    rw [hsrv] at hdata <;>
    simp only [List.cons_append, List.nil_append] at hdata
  · simp [isSidKey, hdata, List.take]
  · simp [isSidKey, hdata, List.take]
  · simp [isSidKey, hdata, List.take]
  · have hne : ¬(c1 = 's' ∧ c2 = 'i' ∧ c3 = 'd') := by
      rintro ⟨rfl, rfl, rfl⟩
      apply h1
      apply String.ext
      rw [hsrv]
    simp only [isSidKey, hdata, List.take, Bool.and_eq_false_iff]
    right
    simp only [decide_eq_false_iff_not]
    intro hcontra
    simp only [List.cons.injEq, and_true] at hcontra
    exact hne ⟨hcontra.1, hcontra.2.1, hcontra.2.2⟩
  · have ht2 : startsSidColon server =
        decide ([c1, c2, c3, c4] = ['s', 'i', 'd', ':']) := by
      simp [startsSidColon, hsrv, List.take]
    rw [ht2] at h2
    simp only [isSidKey, hdata, List.take, Bool.and_eq_false_iff]
    right
    exact h2

theorem sweepSessions_sid_lookup (now : Int) (l : List (String × Session))
    (si act : List (List String × Int)) (k : String) (hk : isSidKey k = true) :
    lookupA (sweepSessions now l si act).1 k = lookupA l k := by
  induction l generalizing si act with
  | nil => rfl
  | cons q rest ih =>
      obtain ⟨a, b⟩ := q
      by_cases hkeep : keepSession now (a, b) = true
      · by_cases hak : a = k
        · subst hak
          simp [sweepSessions, hkeep, lookupA]
        · simp [sweepSessions, hkeep, lookupA, hak, ih]
      · have hkeep' : keepSession now (a, b) = false := by simpa using hkeep
        have hasid : isSidKey a = false := by
          have := hkeep'
          simp only [keepSession, Bool.or_eq_false_iff] at this
          exact this.1
        have hak : a ≠ k := by
          intro h
          rw [h, hk] at hasid
          cases hasid
        simp [sweepSessions, hkeep', lookupA, hak, ih]

theorem vpnipScan_lookup_isSome (event : Event) (l : List (String × Session))
    (si : List (List String × Int)) (k : String) :
    (lookupA (vpnipScan event l si).1 k).isSome = (lookupA l k).isSome := by
  induction l generalizing si with
  | nil => rfl
  | cons q rest ih =>
      obtain ⟨a, b⟩ := q
      by_cases hm : b.username = event.username ∧ b.server = event.server ∧
          b.vpnIP = ""
      · by_cases hak : a = k
        · subst hak
          simp [vpnipScan, hm, lookupA]
        · simp [vpnipScan, hm, lookupA, hak]
      · by_cases hak : a = k
        · subst hak
          simp [vpnipScan, hm, lookupA]
        · simp [vpnipScan, hm, lookupA, hak, ih]

/-- Claim C10 (amended): provided the event's partition is neither "sid"
nor a name beginning with "sid:", every secondary "sid:"-prefixed session
entry survives any processed event (no dispatch case removes it), and a
sweeper pass leaves every "sid:"-prefixed key's entry exactly as it was. -/
theorem claim10_sid_persistence (geo : Option GeoFn) (c : Collector) (event : Event)
    (now : Int) (k : String)
    (h1 : event.server ≠ "sid") (h2 : startsSidColon event.server = false)
    (hk : isSidKey k = true)
    (hmem : (lookupA c.sessions k).isSome = true) :
    (lookupA (ProcessEvent geo c event).sessions k).isSome = true ∧
    lookupA (CleanupOldDisconnects c now).sessions k = lookupA c.sessions k := by
  constructor
  · have hkey : isSidKey
        (sessionKey event.server event.username event.clientIP event.port) =
          false :=
      sessionKey_not_sid _ _ _ _ h1 h2
    have hne : sessionKey event.server event.username event.clientIP
        event.port ≠ k := by
      intro h
      rw [h, hk] at hkey
      cases hkey
    cases htype : event.type
    case unknown => simpa [ProcessEvent, htype] using hmem
    case userLogin =>
        simp only [ProcessEvent, htype, handleLogin]
        exact isSome_lookupA_insertA _ _ _ _ hmem
    case userDisconnect =>
        simp only [ProcessEvent, htype, handleDisconnect]
        rcases hfound : lookupA c.sessions
            (sessionKey event.server event.username event.clientIP event.port)
          with _ | s
        · simpa [hfound] using hmem
        · simp only [hfound]
          rw [lookupA_eraseA_ne _ (Ne.symm hne)]
          exact hmem
    case sessionStart =>
        simp only [ProcessEvent, htype, handleSessionStart]
        exact isSome_lookupA_insertA _ _ _ _ hmem
    case sessionInvalidate => simpa [ProcessEvent, htype] using hmem
    case vpnIPAssigned =>
        simp only [ProcessEvent, htype, handleVPNIP]
        rw [vpnipScan_lookup_isSome]
        exact hmem
    case authFailed => simpa [ProcessEvent, htype, handleAuthFailed] using hmem
    case byePacket => simpa [ProcessEvent, htype, handleByePacket] using hmem
    case dpdWarning => simpa [ProcessEvent, htype, handleDPDWarning] using hmem
    case secModClose => simpa [ProcessEvent, htype, handleSecModClose] using hmem
  · rw [cleanup_sessions_def]
    exact sweepSessions_sid_lookup now c.sessions c.sessionInfo
      c.activeSessions k hk

/-- Claim C8: the VpnIpAssigned scan does not exclude secondary
identifier-keyed entries — a matching "sid:" entry alone is updated, its
session-info gauge child deleted and re-emitted under the new VPN IP with
the original start time; and when both a secondary and a primary entry
match, exactly the first in iteration order is updated, so the primary
Session's VPN IP may remain empty. -/
theorem claim8_vpnip_scan_order (c : Collector) (event : Event) (sidK primK : String)
    (ss sp : Session) (hsid : isSidKey sidK = true)
    (hss : ss.username = event.username ∧ ss.server = event.server ∧
      ss.vpnIP = "")
    (hsp : sp.username = event.username ∧ sp.server = event.server ∧
      sp.vpnIP = "") :
    ((handleVPNIP { c with sessions := [(sidK, ss)] } event).sessions =
      [(sidK, { ss with vpnIP := event.vpnIP })]) ∧
    ((handleVPNIP { c with sessions := [(sidK, ss)] } event).sessionInfo =
      insertA
        (eraseA c.sessionInfo [ss.server, ss.username, "", ss.country, ""])
        [ss.server, ss.username, event.vpnIP, ss.country, ""]
        (unixSec ss.startTime)) ∧
    ((handleVPNIP { c with sessions := [(sidK, ss), (primK, sp)] }
        event).sessions =
      [(sidK, { ss with vpnIP := event.vpnIP }), (primK, sp)]) ∧
    ((handleVPNIP { c with sessions := [(primK, sp), (sidK, ss)] }
        event).sessions =
      [(primK, { sp with vpnIP := event.vpnIP }), (sidK, ss)]) := by
  refine ⟨?_, ?_, ?_, ?_⟩ <;> simp [handleVPNIP, vpnipScan, hss, hsp]

/-- Claim C5 (amended): processing a SessionInvalidate event only updates
the last-event liveness timestamp; unlike SessionStart it is not recorded
into the secondary identifier-keyed space (ProcessEvent has no dispatch case
for it) and has no other state or metric effect. -/
theorem claim5_invalidate_ignored (geo : Option GeoFn) (c : Collector) (event : Event)
    (h : event.type = EventType.sessionInvalidate) :
    ProcessEvent geo c event =
      { c with lastEventTimestamp := unixSec event.timestamp } := by
  simp [ProcessEvent, h]

/-- Claim C6 (amended): an event built from a matched disconnect or
DPD-warning line is always of the recognized kind, and a numeric capture
parses to its value saturated at the maximum of its integer type: a digit
string exceeding uint64 yields 2^64 - 1 for byte counts (int64 and 2^63 - 1
for port and DPD seconds), not zero; only a non-digit capture (unreachable
from the patterns) would yield zero. -/
theorem claim6_numeric_saturation (ts : Int) (server raw : String)
    (username clientIP portStr reason rxStr txStr secsStr : String) :
    ((mkDisconnectEvent ts server raw username clientIP portStr reason rxStr
        txStr).type = EventType.userDisconnect) ∧
    ((mkDPDWarningEvent ts server raw username clientIP secsStr).type =
      EventType.dpdWarning) ∧
    (isDigits rxStr = true →
      (mkDisconnectEvent ts server raw username clientIP portStr reason rxStr
          txStr).rxBytes = min (digitsToNat rxStr) (2 ^ 64 - 1)) ∧
    (isDigits txStr = true →
      (mkDisconnectEvent ts server raw username clientIP portStr reason rxStr
          txStr).txBytes = min (digitsToNat txStr) (2 ^ 64 - 1)) ∧
    (isDigits portStr = true →
      (mkDisconnectEvent ts server raw username clientIP portStr reason rxStr
          txStr).port = ((min (digitsToNat portStr) (2 ^ 63 - 1) : Nat) : Int)) ∧
    (isDigits secsStr = true →
      (mkDPDWarningEvent ts server raw username clientIP secsStr).dpdSeconds =
        ((min (digitsToNat secsStr) (2 ^ 63 - 1) : Nat) : Int)) ∧
    (isDigits rxStr = false →
      (mkDisconnectEvent ts server raw username clientIP portStr reason rxStr
          txStr).rxBytes = 0) := by
  refine ⟨rfl, rfl, ?_, ?_, ?_, ?_, ?_⟩ <;>
    intro h <;>
    simp [mkDisconnectEvent, mkDPDWarningEvent, goParseUint64, goAtoi, h]

/-- Refutation of claim C4 as stated: after two logins of the same user on
different ports (which share one session-info gauge child) and a disconnect
of the first, the second disconnect still finds its Session yet removes zero
session-info gauge entries, not exactly one. -/
theorem claim4_counterexample :
    (lookupA c4state.sessions
      (sessionKey ("ocserv") ("alice") ("2.2.2.2") 2)).isSome = true ∧
    (ProcessEvent none c4state c4disc2).sessionInfo = c4state.sessionInfo := by
  exact ⟨by decide, by decide⟩

/-- Refutation of claim C5 as stated: the same lifecycle event recorded as
SessionStart lands in the secondary space, but as SessionInvalidate it is
not recorded at all. -/
theorem claim5_counterexample :
    lookupA (ProcessEvent none Collector.new
        { invalidateEvent with type := EventType.sessionStart }).sessions
      ("sid:ocserv:abc") ≠ none ∧
    lookupA (ProcessEvent none Collector.new invalidateEvent).sessions
      ("sid:ocserv:abc") = none := by
  exact ⟨by decide, by decide⟩

/-- Refutation of claim C6 as stated: a 26-digit rx capture overflows
uint64 and degrades to the maximum value 2^64 - 1, not to zero, while the
event is still recognized as a disconnect. -/
theorem claim6_counterexample :
    (mkDisconnectEvent 0 ("ocserv") ("raw") ("alice") ("1.2.3.4") ("5")
        ("unspecified error") ("99999999999999999999999999")
        ("7")).rxBytes = 2 ^ 64 - 1 ∧
    (mkDisconnectEvent 0 ("ocserv") ("raw") ("alice") ("1.2.3.4") ("5")
        ("unspecified error") ("99999999999999999999999999")
        ("7")).rxBytes ≠ 0 ∧
    (mkDisconnectEvent 0 ("ocserv") ("raw") ("alice") ("1.2.3.4") ("5")
        ("unspecified error") ("99999999999999999999999999")
        ("7")).type = EventType.userDisconnect := by
  refine ⟨by decide, by decide, rfl⟩

/-- Refutation of claim C10 as stated: with a partition named "sid:x" —
which is not literally "sid" — a disconnect's primary key collides with the
secondary key written by a SessionStart on partition "x", deleting the
secondary entry. -/
theorem claim10_counterexample :
    c10disc.server ≠ "sid" ∧
    (lookupA (ProcessEvent none Collector.new c10start).sessions
      ("sid:x:y:1.2.3.4:5")).isSome = true ∧
    lookupA (ProcessEvent none (ProcessEvent none Collector.new c10start)
        c10disc).sessions ("sid:x:y:1.2.3.4:5") = none := by
  refine ⟨by decide, by decide, by decide⟩

/-- Witness for C3 at a concrete disconnect-then-login pair. -/
theorem claim3_reconnect_counting_witness :
    getNat (handleLogin none (handleDisconnect Collector.new discEvent)
        loginEvent).reconnectsTotal ["ocserv", "alice"] =
      getNat Collector.new.reconnectsTotal ["ocserv", "alice"] + 1 :=
  (claim3_reconnect_counting none Collector.new loginEvent).2.2 discEvent rfl rfl (by decide)

/-- Witness for C5 at a concrete invalidate event. -/
theorem claim5_invalidate_ignored_witness :
    ProcessEvent none Collector.new invalidateEvent =
      { Collector.new with
          lastEventTimestamp := unixSec invalidateEvent.timestamp } :=
  claim5_invalidate_ignored none Collector.new invalidateEvent rfl

/-- Witness for C6 at the documented sample capture values. -/
theorem claim6_numeric_saturation_witness :
    (mkDisconnectEvent 0 ("ocserv") ("raw") ("alice") ("1.2.3.4") ("30595")
        ("user disconnected") ("13295") ("24650")).rxBytes =
      min (digitsToNat ("13295")) (2 ^ 64 - 1) :=
  (claim6_numeric_saturation 0 ("ocserv") ("raw") ("alice") ("1.2.3.4") ("30595")
      ("user disconnected") ("13295") ("24650") ("137")).2.2.1 (by decide)

/-- Witness for C7: a session started at time 0 swept 90000 s later. -/
theorem claim7_sweeper_cleanup_witness :
    lookupA (CleanupOldDisconnects staleCollector 90000000000000).sessions
      ("ocserv:alice:1.1.1.1:1") = none :=
  (claim7_sweeper_cleanup staleCollector 90000000000000 ("ocserv:alice:1.1.1.1:1")
      staleSession (by decide) (by decide) (by decide) (by decide)
      (by decide)).2.1

/-- Witness for C8: a lone secondary entry acquires the VPN IP. -/
theorem claim8_vpnip_scan_order_witness :
    (handleVPNIP { Collector.new with sessions := [(("sid:ocserv:abc"),
        sidSession)] } vpnEvent).sessions =
      [(("sid:ocserv:abc"), { sidSession with vpnIP := vpnEvent.vpnIP })] :=
  (claim8_vpnip_scan_order Collector.new vpnEvent ("sid:ocserv:abc")
      ("ocserv:alice:1.1.1.1:1") sidSession staleSession (by decide)
      (by decide) (by decide)).1

/-- Witness for C9: re-login on an existing key keeps the table size. -/
theorem claim9_login_overwrite_witness :
    (handleLogin none staleCollector loginEvent).sessions.length =
      staleCollector.sessions.length :=
  (claim9_login_overwrite none staleCollector loginEvent (by decide) (by decide)).1

/-- Witness for C10: a secondary entry survives a compliant login. -/
theorem claim10_sid_persistence_witness :
    (lookupA (ProcessEvent none sidCollector loginEvent).sessions
      ("sid:ocserv:abc")).isSome = true :=
  (claim10_sid_persistence none sidCollector loginEvent 0 ("sid:ocserv:abc") (by decide)
      (by decide) (by decide) (by decide)).1

end OcservExporter
